import Mathlib

/-! ## Frame codec: `ZiGate.zigate_encode`, `ZiGate.zigate_decode`,
`ZiGate.checksum` -/

/-- Byte-stuffing encoder, from `ZiGate.zigate_encode`: every byte below
0x10 is emitted as the pair `0x02, 0x10 ^ b`; other bytes pass through. -/
def zigate_encode : List Nat → List Nat
  | [] => []
  | b :: rest =>
      if b < 0x10 then 0x02 :: (0x10 ^^^ b) :: zigate_encode rest
      else b :: zigate_encode rest

/-- Recursive form of the `flip` loop of `ZiGate.zigate_decode`: the first
argument is the `flip` flag. -/
def zigate_decode_go : Bool → List Nat → List Nat
  | _, [] => []
  | true, b :: rest => (b ^^^ 0x10) :: zigate_decode_go false rest
  | false, b :: rest =>
      if b = 0x02 then zigate_decode_go true rest
      else b :: zigate_decode_go false rest

/-- Byte-stuffing decoder, from `ZiGate.zigate_decode`: `0x02` sets a flag,
the byte following the flag is XORed with 0x10, other bytes pass through. -/
def zigate_decode (data : List Nat) : List Nat :=
  zigate_decode_go false data

/-- One argument of `ZiGate.checksum(*args)`: a Python `int` is XORed into
the accumulator whole, anything else is iterated and folded byte by byte. -/
inductive ChecksumArg where
  | int (n : Nat)
  | bytes (bs : List Nat)
deriving DecidableEq, Repr

/-- Loop body of `ZiGate.checksum`. -/
def checksum_fold (chcksum : Nat) (arg : ChecksumArg) : Nat :=
  match arg with
  | ChecksumArg.int n => chcksum ^^^ n
  | ChecksumArg.bytes bs => bs.foldl (· ^^^ ·) chcksum

/-- From `ZiGate.checksum`: XOR-fold of all arguments starting at 0. -/
def checksum (args : List ChecksumArg) : Nat :=
  args.foldl checksum_fold 0

/-! ### Checksum commutativity -/

/-- The XOR contribution of a single `checksum` argument. -/
def argXor : ChecksumArg → Nat
  | ChecksumArg.int n => n
  | ChecksumArg.bytes bs => bs.foldl (· ^^^ ·) 0

/-! ## Python dict model

Python dicts keep insertion order; assignment to an existing key replaces
its value in place, assignment to a fresh key appends.  They are modelled
as association lists. -/

/-- `d.get(k)` lookup (`None` when the key is absent). -/
def dictLookup {K V : Type} [DecidableEq K] (k : K) : List (K × V) → Option V
  | [] => none
  | (k1, v1) :: rest => if k1 = k then some v1 else dictLookup k rest

/-- `d[k] = v` assignment. -/
def dictInsert {K V : Type} [DecidableEq K] (k : K) (v : V) :
    List (K × V) → List (K × V)
  | [] => [(k, v)]
  | (k1, v1) :: rest =>
      if k1 = k then (k, v) :: rest else (k1, v1) :: dictInsert k v rest

/-- `del d[k]` (total here; callers only delete present keys). -/
def dictDelete {K V : Type} [DecidableEq K] (k : K) :
    List (K × V) → List (K × V)
  | [] => []
  | (k1, v1) :: rest =>
      if k1 = k then dictDelete k rest else (k1, v1) :: dictDelete k rest

/-- `d.update(other)`: merge `other` into `d`, entries of `other` winning. -/
def dictUpdate {K V : Type} [DecidableEq K] (d : List (K × V)) :
    List (K × V) → List (K × V)
  | [] => d
  | (k1, v1) :: rest => dictUpdate (dictInsert k1 v1 d) rest

/-! ## Device data model

`Device` (class `Device` in `core.py`) holds a free-form `info` dict
(entries used by the claims — `addr`, `ieee`, `last_seen` — are strings),
an `endpoints` dict and a `missing` flag.  An endpoint dict may lack the
`device` or `in_clusters` keys (`.get(...) is None` in the source), hence
`Option` fields; clusters hold attribute dicts of which the claims use the
`name` and `value` entries. -/

/-- One attribute dict inside a cluster (`name`/`value` entries only). -/
structure DevAttribute where
  name : Option String := none
  value : Option String := none
deriving DecidableEq, Repr

/-- One cluster: its decoded attributes (`Cluster.attributes.values()`). -/
structure DevCluster where
  attributes : List DevAttribute := []
deriving DecidableEq, Repr

/-- One endpoint dict (`Device.get_endpoint` seeds all keys; other code
paths may leave `device` or `in_clusters` unset, which Python reads as
`None` via `.get`). -/
structure Endpoint where
  profile : Option Nat := none
  device : Option Nat := none
  in_clusters : Option (List Nat) := none
  out_clusters : Option (List Nat) := none
  clusters : List (Nat × DevCluster) := []
deriving DecidableEq, Repr

/-- `Device`: `info` dict, `endpoints` dict, `missing` flag. -/
structure Device where
  info : List (String × String) := []
  endpoints : List (Nat × Endpoint) := []
  missing : Bool := false
deriving DecidableEq, Repr

/-- Python truthiness of an optional string: `None` and `''` are falsy. -/
def truthyS : Option String → Bool
  | none => false
  | some s => decide (s ≠ "")

/-- `Device.addr` property: `self.info['addr']`. -/
def Device.addr (d : Device) : String :=
  (dictLookup "addr" d.info).getD ""

/-- `Device.ieee` property: `self.info.get('ieee')`. -/
def Device.ieee (d : Device) : Option String :=
  dictLookup "ieee" d.info

/-- `Device.last_seen` property: `self.info.get('last_seen')`. -/
def Device.last_seen (d : Device) : Option String :=
  dictLookup "last_seen" d.info

/-- `Device.update(other)`: `self.info.update(device.info)` and
`self.endpoints.update(device.endpoints)`; `missing` is untouched. -/
def Device.update (d other : Device) : Device :=
  { info := dictUpdate d.info other.info,
    endpoints := dictUpdate d.endpoints other.endpoints,
    missing := d.missing }

/-- All attribute dicts of a device in iteration order
(`Device.get_property` walks endpoints, then clusters, then attributes). -/
def Device.attributesList (d : Device) : List DevAttribute :=
  d.endpoints.flatMap (fun ep => ep.2.clusters.flatMap (fun c => c.2.attributes))

/-- `Device.get_property(name)`: first attribute whose `name` entry equals
the requested name. -/
def get_property (d : Device) (name : String) : Option DevAttribute :=
  d.attributesList.find? (fun a => decide (a.name = some name))

/-- `Device.get_property_value(name)` with the default `None`:
`prop.get('value', None)` of the found attribute. -/
def get_property_value (d : Device) (name : String) : Option String :=
  match get_property d name with
  | some a => a.value
  | none => none

/-! ## Device directory: `ZiGate._set_device`, `ZiGate.get_device_from_ieee`,
`ZiGate._tag_missing` -/

/-- Domain events dispatched by the directory operations. -/
inductive DirEvent where
  | updated (a : String)
  | renamed (old_a new_a : String)
  | added (a : String)
deriving DecidableEq, Repr

/-- `ZiGate.get_device_from_ieee(ieee)`: `None` for a falsy ieee, else the
first tracked device (dict iteration order) whose `ieee` equals it. -/
def get_device_from_ieee (dir : List (String × Device)) (ieee : Option String) :
    Option Device :=
  if truthyS ieee then
    (dir.find? (fun kv => decide (kv.2.ieee = ieee))).map (fun kv => kv.2)
  else none

/-- `ZiGate._set_device(device)`: update in place when the address is
tracked; otherwise rename when another tracked device holds the same ieee;
otherwise insert.  Returns the new directory and the dispatched events
(the trailing `refresh_device` only sends commands and is omitted). -/
def set_device (dir : List (String × Device)) (device : Device) :
    List (String × Device) × List DirEvent :=
  match dictLookup device.addr dir with
  | some existing =>
      (dictInsert device.addr (existing.update device) dir,
       [DirEvent.updated device.addr])
  | none =>
      match get_device_from_ieee dir device.ieee with
      | some d =>
          let old_addr := d.addr
          let new_addr := device.addr
          let d' := d.update device
          (dictDelete old_addr (dictInsert new_addr d' dir),
           [DirEvent.renamed old_addr new_addr])
      | none =>
          (dictInsert device.addr device dir, [DirEvent.added device.addr])

/-- Python `<` on strings: lexicographic comparison of code points. -/
def pyStrLtChars : List Char → List Char → Bool
  | [], [] => false
  | [], _ :: _ => true
  | _ :: _, [] => false
  | c1 :: r1, c2 :: r2 =>
      if c1.toNat < c2.toNat then true
      else if c2.toNat < c1.toNat then false
      else pyStrLtChars r1 r2

/-- Python `a < b` for strings. -/
def pyStrLt (a b : String) : Bool :=
  pyStrLtChars a.data b.data

/-- `ZiGate._tag_missing(addr)`: flag a tracked device missing when its
`last_seen` is truthy and lexicographically below the threshold string
`last_24h` (the source formats both with `%Y-%m-%d %H:%M:%S`, so string
order is chronological order). -/
def tag_missing (dir : List (String × Device)) (addr : String)
    (last_24h : String) : List (String × Device) × List DirEvent :=
  match dictLookup addr dir with
  | none => (dir, [])
  | some dev =>
      if truthyS dev.last_seen && pyStrLt (dev.last_seen.getD "") last_24h then
        (dictInsert addr { dev with missing := true } dir,
         [DirEvent.updated addr])
      else (dir, [])

/-- `Device.need_refresh()`: the `need` flag accumulated over the four
checks and the per-endpoint loop of the source. -/
def need_refresh (d : Device) : Bool :=
  let need0 := false
  let need1 := if truthyS (get_property_value d "type") then need0 else true
  let need2 := if truthyS d.ieee then need1 else true
  let need3 := if d.endpoints.isEmpty then true else need2
  d.endpoints.foldl
    (fun need kv =>
      let needA := if kv.2.device = none then true else need
      if kv.2.in_clusters = none then true else needA)
    need3

/-! ## Inbound frame handling: `ZiGate.decode_data`

`decode_data` strips the delimiters (`packet[1:-1]`), unstuffs, then
unpacks `!HHB%dsB` (msg_type, length big-endian; checksum byte; payload;
trailing rssi byte).  A `struct.error` (fewer than six unstuffed bytes), a
length mismatch or a checksum mismatch each abandon the frame.  On success
the decoded response is cached in `_last_response` and the
response-received signal fires, which runs `interpret_response`; that
dispatcher is abstracted here as the `interp` parameter, so the rejection
paths are proved to leave the state untouched for every interpreter. -/

/-- A decoded frame (`msg_type, length, checksum, value, rssi`). -/
structure Frame where
  msg_type : Nat
  length : Nat
  checksum : Nat
  value : List Nat
  rssi : Nat
deriving DecidableEq, Repr

/-- The `ZiGate` state touched by `decode_data`: the device directory and
the per-message-type response cache. -/
structure CoreState where
  devices : List (String × Device)
  last_response : List (Nat × Frame)
deriving DecidableEq, Repr

/-- `ZiGate.decode_data(packet)` as a state transition; `interp` is the
signal-connected `interpret_response` dispatcher. -/
def decode_data (interp : Frame → CoreState → CoreState) (st : CoreState)
    (packet : List Nat) : CoreState :=
  match zigate_decode ((packet.drop 1).dropLast) with
  | a :: b :: c :: d :: e :: x :: rest =>
      let tail := x :: rest
      let value := tail.dropLast
      let rssi := tail.getLastD 0
      let msg_type := 256 * a + b
      let length := 256 * c + d
      if length ≠ value.length + 1 then st
      else if e ≠ checksum [ChecksumArg.bytes [a, b, c, d],
                            ChecksumArg.int rssi, ChecksumArg.bytes value] then st
      else
        let response : Frame := ⟨msg_type, length, e, value, rssi⟩
        interp response
          { st with last_response := dictInsert msg_type response st.last_response }
  | _ => st

/-! ## OTA transfer state machine: `ZiGate._ota_send_image_data`,
`ZiGate._ota_handle_upgrade_end_request`, `ZiGate._ota_reset_local_variables` -/

/-- The loaded image header fields read by the OTA handlers. -/
structure ImageHeader where
  manufacturer_code : Nat
  image_type : Nat
  image_version : Nat
deriving DecidableEq, Repr

/-- `self._ota['image']`. -/
structure OtaImage where
  header : Option ImageHeader
  data : Option (List Nat)
deriving DecidableEq, Repr

/-- `self._ota`: the OTA session singleton (`starttime` is `False` or a
timestamp, modelled as `Option Nat`). -/
structure OtaState where
  image : OtaImage
  active : Bool
  starttime : Option Nat
  transfered : Nat
  addr : Option String
deriving DecidableEq, Repr

/-- Fields of an incoming 0x8501 image-block request used by the source. -/
structure OtaBlockRequest where
  addr : String
  address_mode : Nat
  endpoint : Nat
  sequence : Nat
  file_offset : Nat
  max_data_size : Nat
  image_version : Nat
  image_type : Nat
  manufacturer_code : Nat
deriving DecidableEq, Repr

/-- The 0x0502 payload packed by `_ota_send_image_data` (the `addr` field
is hex-decoded on the wire; it is kept as the string here). -/
structure OtaChunk where
  address_mode : Nat
  addr : String
  source_endpoint : Nat
  endpoint : Nat
  sequence : Nat
  status : Nat
  file_offset : Nat
  image_version : Nat
  image_type : Nat
  manufacturer_code : Nat
  data_size : Nat
  data : List Nat
deriving DecidableEq, Repr

/-- `ZiGate._ota_reset_local_variables()`. -/
def ota_reset_local_variables : OtaState :=
  { image := { header := none, data := none }, active := false,
    starttime := none, transfered := 0, addr := none }

/-- `ZiGate._ota_send_image_data(request)`: reject when no header or data
is loaded, reject when the request's image version/type/manufacturer code
differ from the header's, otherwise mark the session active on first use,
set `transfered` to the requested offset and send the requested slice of
the image (`now` stands for `datetime.datetime.now()`). -/
def ota_send_image_data (st : OtaState) (now : Nat) (req : OtaBlockRequest) :
    OtaState × Option OtaChunk :=
  match st.image.header, st.image.data with
  | some header, some image_data =>
      if req.image_version ≠ header.image_version ∨
         req.image_type ≠ header.image_type ∨
         req.manufacturer_code ≠ header.manufacturer_code then
        (st, none)
      else
        let st1 :=
          if st.starttime = none ∧ st.active = false then
            { st with starttime := some now, active := true, transfered := 0,
                      addr := some req.addr }
          else st
        let st2 := { st1 with transfered := req.file_offset }
        let chunk_data := (image_data.drop req.file_offset).take req.max_data_size
        (st2, some ⟨req.address_mode, req.addr, 0x01, req.endpoint, req.sequence,
                    0x00, req.file_offset, header.image_version, header.image_type,
                    header.manufacturer_code, chunk_data.length, chunk_data⟩)
  | _, _ => (st, none)

/-- `ZiGate._ota_handle_upgrade_end_request(request)`: while active, every
status value (0x00, 0x95, 0x96, 0x99 and any other) only changes what is
logged; the session is reset unconditionally. -/
def ota_handle_upgrade_end_request (st : OtaState) (status : Nat) : OtaState :=
  if st.active = true then ota_reset_local_variables else st

/-! ## Command status wait: `ZiGate._wait_status`

The polling loop checks `self._last_status.get(cmd)` every 10 ms and gives
up once more than 3 s have elapsed.  Wall-clock time is abstracted by the
poll index: the k-th check happens at `t1 + 0.01 * k` seconds, so the
`t2 - t1 > 3` timeout fires right after the check at index 300 fails —
301 checks in total.  The transport is abstracted as the function
`statuses` giving the cache content seen by each poll (a transport that
never delivers a status is `fun k => none`). -/

/-- The remaining-polls recursion of `_wait_status`: returns the pair of
the Python return value and the updated `_no_response_count`. -/
def wait_status_go (statuses : Nat → Option Nat) (no_response_count : Nat) :
    Nat → Nat → Option Nat × Nat
  | 0, _ => (none, no_response_count + 1)
  | fuel + 1, k =>
      match statuses k with
      | some s => (some s, 0)
      | none => wait_status_go statuses no_response_count fuel (k + 1)

/-- `ZiGate._wait_status(cmd)`: poll up to 301 times from index 0. -/
def wait_status (statuses : Nat → Option Nat) (no_response_count : Nat) :
    Option Nat × Nat :=
  wait_status_go statuses no_response_count 301 0

/-! ## Theorems -/

/-! ### Codec lemmas -/

theorem xor_cancel_16 (b : Nat) : (0x10 ^^^ b) ^^^ 0x10 = b := by
  rw [Nat.xor_comm 0x10 b, Nat.xor_assoc, Nat.xor_self, Nat.xor_zero]

theorem zigate_decode_go_escape (y : Nat) (l : List Nat) :
    zigate_decode_go false (0x02 :: y :: l) = (y ^^^ 0x10) :: zigate_decode_go false l := by
  simp [zigate_decode_go]

theorem zigate_decode_go_plain (b : Nat) (l : List Nat) (hb : b ≠ 0x02) :
    zigate_decode_go false (b :: l) = b :: zigate_decode_go false l := by
  simp [zigate_decode_go, hb]

theorem zigate_decode_go_encode (x : List Nat) :
    zigate_decode_go false (zigate_encode x) = x := by
  induction x with
  | nil => rfl
  | cons b rest ih =>
      by_cases hb : b < 0x10
      · rw [zigate_encode, if_pos hb, zigate_decode_go_escape, xor_cancel_16, ih]
      · have h2 : b ≠ 0x02 := by omega
        rw [zigate_encode, if_neg hb, zigate_decode_go_plain b _ h2, ih]

theorem zigate_encode_id_of_ge (x : List Nat) (h : ∀ b ∈ x, 0x10 ≤ b) :
    zigate_encode x = x := by
  induction x with
  | nil => rfl
  | cons b rest ih =>
      have hb : ¬ b < 0x10 := by
        have := h b (List.mem_cons_self b rest)
        omega
      rw [zigate_encode, if_neg hb,
          ih (fun y hy => h y (List.mem_cons_of_mem b hy))]

/-- C2: the byte-stuffing codec round-trips (`decode (encode x) = x` for
every byte sequence `x`), and encoding is the identity on sequences whose
bytes are all at least 0x10. -/
theorem zigate_codec_roundtrip (x : List Nat) :
    zigate_decode (zigate_encode x) = x ∧
    ((∀ b ∈ x, 0x10 ≤ b) → zigate_encode x = x) :=
  ⟨zigate_decode_go_encode x, fun h => zigate_encode_id_of_ge x h⟩

/-- Witness for C2 at concrete inputs: a sequence with a low byte
round-trips, and a sequence of high bytes is encoded unchanged. -/
theorem zigate_codec_roundtrip_witness :
    zigate_decode (zigate_encode [0x05, 0x20]) = [0x05, 0x20] ∧
    zigate_encode [0x10, 0x20] = [0x10, 0x20] :=
  ⟨(zigate_codec_roundtrip [0x05, 0x20]).1,
   (zigate_codec_roundtrip [0x10, 0x20]).2 (by decide)⟩

theorem xor16_lift : ∀ b < 0x10, 0x10 ≤ 0x10 ^^^ b := by
  decide

theorem zigate_encode_mem_safe (x : List Nat) :
    ∀ y ∈ zigate_encode x, y = 0x02 ∨ 0x10 ≤ y := by
  induction x with
  | nil => intro y hy; cases hy
  | cons b rest ih =>
      intro y hy
      by_cases hb : b < 0x10
      · rw [zigate_encode, if_pos hb] at hy
        rcases List.mem_cons.mp hy with hy | hy
        · exact Or.inl hy
        · rcases List.mem_cons.mp hy with hy | hy
          · exact Or.inr (hy ▸ xor16_lift b hb)
          · exact ih y hy
      · rw [zigate_encode, if_neg hb] at hy
        rcases List.mem_cons.mp hy with hy | hy
        · exact Or.inr (by omega)
        · exact ih y hy

/-- C10: every byte of the stuffed body is either the escape marker 0x02 or
at least 0x10, so the frame delimiters 0x01 and 0x03 never occur inside an
encoded body. -/
theorem zigate_encode_body_safe (x : List Nat) :
    (∀ y ∈ zigate_encode x, y = 0x02 ∨ 0x10 ≤ y) ∧
    0x01 ∉ zigate_encode x ∧ 0x03 ∉ zigate_encode x := by
  refine ⟨zigate_encode_mem_safe x, fun h1 => ?_, fun h3 => ?_⟩
  · rcases zigate_encode_mem_safe x 0x01 h1 with h | h <;> omega
  · rcases zigate_encode_mem_safe x 0x03 h3 with h | h <;> omega

/-- Witness for C10 at the concrete input `[0x00]` (encoded as
`[0x02, 0x10]`). -/
theorem zigate_encode_body_safe_witness :
    (0x02 = 0x02 ∨ 0x10 ≤ 0x02) ∧
    0x01 ∉ zigate_encode [0x00] ∧ 0x03 ∉ zigate_encode [0x00] :=
  ⟨(zigate_encode_body_safe [0x00]).1 0x02 (by decide),
   (zigate_encode_body_safe [0x00]).2.1,
   (zigate_encode_body_safe [0x00]).2.2⟩

theorem foldl_xor_shift (bs : List Nat) (a : Nat) :
    bs.foldl (· ^^^ ·) a = a ^^^ bs.foldl (· ^^^ ·) 0 := by
  induction bs generalizing a with
  | nil => simp
  | cons b rest ih =>
      simp only [List.foldl_cons]
      rw [ih (a ^^^ b), ih (0 ^^^ b), Nat.zero_xor, Nat.xor_assoc]

theorem checksum_step (acc : Nat) (arg : ChecksumArg) :
    checksum_fold acc arg = acc ^^^ argXor arg := by
  cases arg with
  | int n => rfl
  | bytes bs => exact foldl_xor_shift bs acc

theorem checksum_three (a b c : ChecksumArg) :
    checksum [a, b, c] = (argXor a ^^^ argXor b) ^^^ argXor c := by
  simp only [checksum, List.foldl_cons, List.foldl_nil]
  rw [checksum_step, checksum_step, checksum_step, Nat.zero_xor]

theorem checksum_three_swap (a b c : ChecksumArg) :
    checksum [a, b, c] = checksum [c, b, a] := by
  rw [checksum_three, checksum_three]
  rw [Nat.xor_assoc, Nat.xor_comm (argXor b) (argXor c), ← Nat.xor_assoc,
      Nat.xor_comm (argXor a) (argXor c), Nat.xor_assoc,
      Nat.xor_comm (argXor a) (argXor b), ← Nat.xor_assoc]

/-- C9 counterexample: no triple of checksum arguments — integer or
byte-sequence — distinguishes `checksum a b c` from `checksum c b a`;
XOR folding is commutative, so the claimed non-commuting instance does not
exist. -/
theorem checksum_swap_no_cex :
    ¬ ∃ a b c : ChecksumArg, checksum [a, b, c] ≠ checksum [c, b, a] := by
  rintro ⟨a, b, c, h⟩
  exact h (checksum_three_swap a b c)

/-- C9 (amended): `checksum (a, b, c) = checksum (c, b, a)` for all
arguments, multi-byte integer parts included; in particular the checksum is
commutative across byte-level folding. -/
theorem checksum_swap_comm (a b c : ChecksumArg) :
    checksum [a, b, c] = checksum [c, b, a] :=
  checksum_three_swap a b c

theorem dictLookup_insert_self {K V : Type} [DecidableEq K] (k : K) (v : V)
    (d : List (K × V)) : dictLookup k (dictInsert k v d) = some v := by
  induction d with
  | nil => simp [dictInsert, dictLookup]
  | cons kv rest ih =>
      obtain ⟨k1, v1⟩ := kv
      by_cases h : k1 = k
      · simp [dictInsert, h, dictLookup]
      · simp [dictInsert, h, dictLookup, ih]

theorem dictLookup_insert_ne {K V : Type} [DecidableEq K] (k k' : K) (v : V)
    (d : List (K × V)) (hne : k' ≠ k) :
    dictLookup k' (dictInsert k v d) = dictLookup k' d := by
  induction d with
  | nil => simp [dictInsert, dictLookup, Ne.symm hne]
  | cons kv rest ih =>
      obtain ⟨k1, v1⟩ := kv
      by_cases h : k1 = k
      · subst h
        simp [dictInsert, dictLookup, Ne.symm hne]
      · simp only [dictInsert, if_neg h, dictLookup, ih]

theorem dictLookup_delete_self {K V : Type} [DecidableEq K] (k : K)
    (d : List (K × V)) : dictLookup k (dictDelete k d) = none := by
  induction d with
  | nil => rfl
  | cons kv rest ih =>
      obtain ⟨k1, v1⟩ := kv
      by_cases h : k1 = k
      · simp [dictDelete, h, ih]
      · simp [dictDelete, h, dictLookup, ih]

theorem dictLookup_delete_ne {K V : Type} [DecidableEq K] (k k' : K)
    (d : List (K × V)) (hne : k' ≠ k) :
    dictLookup k' (dictDelete k d) = dictLookup k' d := by
  induction d with
  | nil => rfl
  | cons kv rest ih =>
      obtain ⟨k1, v1⟩ := kv
      by_cases h : k1 = k
      · subst h
        simp [dictDelete, dictLookup, Ne.symm hne, ih]
      · simp only [dictDelete, if_neg h, dictLookup, ih]

theorem dictLookup_none_forall {K V : Type} [DecidableEq K] (k : K)
    (d : List (K × V)) (h : dictLookup k d = none) : ∀ kv ∈ d, kv.1 ≠ k := by
  induction d with
  | nil => intro kv hkv; cases hkv
  | cons kv' rest ih =>
      obtain ⟨k1, v1⟩ := kv'
      intro kv hkv
      by_cases h1 : k1 = k
      · rw [dictLookup, if_pos h1] at h; cases h
      · rw [dictLookup, if_neg h1] at h
        rcases List.mem_cons.mp hkv with rfl | hkv
        · exact h1
        · exact ih h kv hkv

theorem dictInsert_append_of_absent {K V : Type} [DecidableEq K] (k : K)
    (v : V) (d : List (K × V)) (h : dictLookup k d = none) :
    dictInsert k v d = d ++ [(k, v)] := by
  induction d with
  | nil => rfl
  | cons kv rest ih =>
      obtain ⟨k1, v1⟩ := kv
      by_cases h1 : k1 = k
      · rw [dictLookup, if_pos h1] at h; cases h
      · rw [dictLookup, if_neg h1] at h
        simp [dictInsert, h1, ih h]

theorem dictLookup_mem_keys {K V : Type} [DecidableEq K] (k : K)
    (d : List (K × V)) (w : V) (h : dictLookup k d = some w) :
    k ∈ d.map Prod.fst := by
  induction d with
  | nil => cases h
  | cons kv rest ih =>
      obtain ⟨k1, v1⟩ := kv
      by_cases h1 : k1 = k
      · simp [h1]
      · rw [dictLookup, if_neg h1] at h
        simp [ih h]

theorem dictLookup_update_absent {K V : Type} [DecidableEq K] (k : K)
    (b : List (K × V)) :
    ∀ d : List (K × V), dictLookup k b = none →
      dictLookup k (dictUpdate d b) = dictLookup k d := by
  induction b with
  | nil => intro d _; rfl
  | cons kv rest ih =>
      obtain ⟨k1, v1⟩ := kv
      intro d h
      by_cases h1 : k1 = k
      · rw [dictLookup, if_pos h1] at h; cases h
      · rw [dictLookup, if_neg h1] at h
        rw [dictUpdate, ih _ h, dictLookup_insert_ne _ _ _ _ (Ne.symm h1)]

theorem dictLookup_update_present {K V : Type} [DecidableEq K] (k : K)
    (b : List (K × V)) :
    ∀ (d : List (K × V)) (v : V), (b.map Prod.fst).Nodup →
      dictLookup k b = some v → dictLookup k (dictUpdate d b) = some v := by
  induction b with
  | nil => intro d v _ h; cases h
  | cons kv rest ih =>
      obtain ⟨k1, v1⟩ := kv
      intro d v hnd h
      rw [List.map_cons, List.nodup_cons] at hnd
      by_cases h1 : k1 = k
      · rw [dictLookup, if_pos h1] at h
        have habsent : dictLookup k rest = none := by
          rcases hrest : dictLookup k rest with _ | w
          · rfl
          · exact absurd (h1 ▸ dictLookup_mem_keys _ _ _ hrest) hnd.1
        rw [dictUpdate, dictLookup_update_absent _ _ _ habsent, ← h1,
            dictLookup_insert_self]
        exact h
      · rw [dictLookup, if_neg h1] at h
        rw [dictUpdate]
        exact ih _ _ hnd.2 h

/-! ### Directory theorems -/

theorem need_refresh_foldl (l : List (Nat × Endpoint)) (acc : Bool) :
    l.foldl
      (fun need kv =>
        let needA := if kv.2.device = none then true else need
        if kv.2.in_clusters = none then true else needA)
      acc
      = (acc ||
         l.any (fun kv =>
           decide (kv.2.device = none) || decide (kv.2.in_clusters = none))) := by
  induction l generalizing acc with
  | nil => simp
  | cons kv rest ih =>
      simp only [List.foldl_cons, List.any_cons]
      rw [ih]
      by_cases h1 : kv.2.device = none <;> by_cases h2 : kv.2.in_clusters = none <;>
        simp [h1, h2, Bool.or_assoc, Bool.or_comm, Bool.or_left_comm]

/-- C8: `need_refresh` returns true exactly when the device type is
unknown, the ieee is unknown, there are no endpoints, or some endpoint
lacks a device type or a cluster list. -/
theorem need_refresh_iff (d : Device) :
    need_refresh d = true ↔
      truthyS (get_property_value d "type") = false ∨
      truthyS d.ieee = false ∨ d.endpoints = [] ∨
      ∃ kv ∈ d.endpoints, kv.2.device = none ∨ kv.2.in_clusters = none := by
  unfold need_refresh
  rw [need_refresh_foldl]
  by_cases h1 : truthyS (get_property_value d "type") = true <;>
  by_cases h2 : truthyS d.ieee = true <;>
  by_cases h3 : d.endpoints = [] <;>
    simp [h1, h2, h3, Bool.not_eq_true, List.isEmpty_iff, List.any_eq_true]

/-- C7: for a tracked address, `_tag_missing` flags the device missing and
emits exactly one updated event precisely when its `last_seen` entry is
present (truthy) and lexicographically below the 24-hour threshold string;
otherwise the directory is returned unchanged with no event. -/
theorem tag_missing_spec (dir : List (String × Device)) (addr last_24h : String)
    (d : Device) (h : dictLookup addr dir = some d) :
    (truthyS d.last_seen = true ∧ pyStrLt (d.last_seen.getD "") last_24h = true →
       tag_missing dir addr last_24h =
         (dictInsert addr { d with missing := true } dir,
          [DirEvent.updated addr])) ∧
    (¬ (truthyS d.last_seen = true ∧ pyStrLt (d.last_seen.getD "") last_24h = true) →
       tag_missing dir addr last_24h = (dir, [])) := by
  constructor
  · rintro ⟨h1, h2⟩
    unfold tag_missing
    rw [h]
    simp [h1, h2]
  · intro hn
    unfold tag_missing
    rw [h]
    by_cases h1 : truthyS d.last_seen = true
    · by_cases h2 : pyStrLt (d.last_seen.getD "") last_24h = true
      · exact absurd ⟨h1, h2⟩ hn
      · simp [h1, h2]
    · rw [Bool.not_eq_true] at h1
      simp [h1]

/-- Witness for C7: a device last seen in 2018 is tagged against a 2019
threshold, and one updated event is emitted. -/
theorem tag_missing_spec_witness :
    tag_missing
        [("0001", { info := [("addr", "0001"), ("last_seen", "2018-06-01 10:00:00")] })]
        "0001" "2019-06-01 10:00:00" =
      (dictInsert "0001"
         { info := [("addr", "0001"), ("last_seen", "2018-06-01 10:00:00")],
           missing := true }
         [("0001", { info := [("addr", "0001"), ("last_seen", "2018-06-01 10:00:00")] })],
       [DirEvent.updated "0001"]) :=
  (tag_missing_spec _ _ _
      { info := [("addr", "0001"), ("last_seen", "2018-06-01 10:00:00")] }
      (by decide)).1 ⟨by decide, by decide⟩

theorem dictDelete_eq_filter {K V : Type} [DecidableEq K] (k : K)
    (d : List (K × V)) :
    dictDelete k d = d.filter (fun kv => decide (kv.1 ≠ k)) := by
  induction d with
  | nil => rfl
  | cons kv rest ih =>
      obtain ⟨k1, v1⟩ := kv
      by_cases h : k1 = k
      · simp [dictDelete, h, ih]
      · simp [dictDelete, h, ih]

/-- C1 (amended): when `_set_device` receives a device whose address is not
yet tracked and whose (truthy) ieee belongs to a tracked device `d`, the
existing object is moved to the new address (merged with the incoming
record; endpoints preserved verbatim when the incoming record carries
none), the old address key is deleted, exactly one renamed event is
emitted, and if `d` was the only holder of that ieee then the moved device
is again its only holder.  (The unamended claim fails when the incoming
address is already tracked: see the counterexample.) -/
theorem set_device_rename (dir : List (String × Device)) (device d : Device)
    (hkeys : ∀ kv ∈ dir, kv.2.addr = kv.1)
    (hinfo : (device.info.map Prod.fst).Nodup)
    (hnew : dictLookup device.addr dir = none)
    (hieee : get_device_from_ieee dir device.ieee = some d) :
    (set_device dir device).2 = [DirEvent.renamed d.addr device.addr] ∧
    dictLookup device.addr (set_device dir device).1 = some (d.update device) ∧
    dictLookup d.addr (set_device dir device).1 = none ∧
    (device.endpoints = [] → (d.update device).endpoints = d.endpoints) ∧
    (∀ x : String, device.ieee = some x →
       dir.filter (fun kv => decide (kv.2.ieee = some x)) = [(d.addr, d)] →
       (set_device dir device).1.filter (fun kv => decide (kv.2.ieee = some x)) =
         [(device.addr, d.update device)]) := by
  have hne : d.addr ≠ device.addr := by
    have hie := hieee
    rw [get_device_from_ieee] at hie
    by_cases ht : truthyS device.ieee = true
    · rw [if_pos ht] at hie
      obtain ⟨kv0, hfind, hkv0⟩ := Option.map_eq_some'.mp hie
      have hkv0' : kv0.2 = d := hkv0
      have hmem := List.mem_of_find?_eq_some hfind
      have hkne := dictLookup_none_forall _ _ hnew kv0 hmem
      rw [← hkv0', hkeys kv0 hmem]
      exact hkne
    · rw [if_neg ht] at hie; cases hie
  have hred : set_device dir device =
      (dictDelete d.addr (dictInsert device.addr (d.update device) dir),
       [DirEvent.renamed d.addr device.addr]) := by
    simp only [set_device, hnew, hieee]
  refine ⟨by rw [hred], ?_, ?_, ?_, ?_⟩
  · rw [hred]
    show dictLookup device.addr
        (dictDelete d.addr (dictInsert device.addr (d.update device) dir)) = _
    rw [dictLookup_delete_ne _ _ _ (Ne.symm hne), dictLookup_insert_self]
  · rw [hred]
    exact dictLookup_delete_self _ _
  · intro h
    show (Device.mk (dictUpdate d.info device.info)
        (dictUpdate d.endpoints device.endpoints) d.missing).endpoints = _
    rw [h]
    rfl
  · intro x hx hfilter
    have hxnew : dictLookup "ieee" (dictUpdate d.info device.info) = some x :=
      dictLookup_update_present "ieee" device.info d.info x hinfo hx
    have hcomm : ∀ (l : List (String × Device)),
        l.filter (fun kv =>
            decide (kv.2.ieee = some x) && decide (kv.1 ≠ d.addr))
          = (l.filter (fun kv => decide (kv.2.ieee = some x))).filter
              (fun kv => decide (kv.1 ≠ d.addr)) := by
      intro l
      rw [List.filter_filter]
      exact List.filter_congr (fun a _ => by rw [Bool.and_comm])
    rw [hred]
    show (dictDelete d.addr
        (dictInsert device.addr (d.update device) dir)).filter
          (fun kv => decide (kv.2.ieee = some x)) = _
    rw [dictDelete_eq_filter, dictInsert_append_of_absent _ _ _ hnew,
        List.filter_filter, hcomm, List.filter_append, hfilter]
    have hieee' : (d.update device).ieee = some x := hxnew
    simp [hxnew, Ne.symm hne, hne, hieee']

/-- Witness for C1 at a concrete directory: a tracked device at `0001`
holding ieee `aabb` is renamed to `0002` by an incoming record with the
same ieee and the fresh address `0002`. -/
theorem set_device_rename_witness :
    (set_device
        [("0001", { info := [("addr", "0001"), ("ieee", "aabb")],
                    endpoints := [(1, { device := some 0, in_clusters := some [0] })] })]
        { info := [("addr", "0002"), ("ieee", "aabb")] }).2 =
      [DirEvent.renamed "0001" "0002"] ∧
    dictLookup "0002"
      (set_device
        [("0001", { info := [("addr", "0001"), ("ieee", "aabb")],
                    endpoints := [(1, { device := some 0, in_clusters := some [0] })] })]
        { info := [("addr", "0002"), ("ieee", "aabb")] }).1 =
      some (Device.update
        { info := [("addr", "0001"), ("ieee", "aabb")],
          endpoints := [(1, { device := some 0, in_clusters := some [0] })] }
        { info := [("addr", "0002"), ("ieee", "aabb")] }) ∧
    (set_device
        [("0001", { info := [("addr", "0001"), ("ieee", "aabb")],
                    endpoints := [(1, { device := some 0, in_clusters := some [0] })] })]
        { info := [("addr", "0002"), ("ieee", "aabb")] }).1.filter
        (fun kv => decide (kv.2.ieee = some "aabb")) =
      [("0002", Device.update
        { info := [("addr", "0001"), ("ieee", "aabb")],
          endpoints := [(1, { device := some 0, in_clusters := some [0] })] }
        { info := [("addr", "0002"), ("ieee", "aabb")] })] :=
  ⟨(set_device_rename
      [("0001", { info := [("addr", "0001"), ("ieee", "aabb")],
                  endpoints := [(1, { device := some 0, in_clusters := some [0] })] })]
      { info := [("addr", "0002"), ("ieee", "aabb")] }
      { info := [("addr", "0001"), ("ieee", "aabb")],
        endpoints := [(1, { device := some 0, in_clusters := some [0] })] }
      (by decide) (by decide) (by decide) (by decide)).1,
   (set_device_rename
      [("0001", { info := [("addr", "0001"), ("ieee", "aabb")],
                  endpoints := [(1, { device := some 0, in_clusters := some [0] })] })]
      { info := [("addr", "0002"), ("ieee", "aabb")] }
      { info := [("addr", "0001"), ("ieee", "aabb")],
        endpoints := [(1, { device := some 0, in_clusters := some [0] })] }
      (by decide) (by decide) (by decide) (by decide)).2.1,
   (set_device_rename
      [("0001", { info := [("addr", "0001"), ("ieee", "aabb")],
                  endpoints := [(1, { device := some 0, in_clusters := some [0] })] })]
      { info := [("addr", "0002"), ("ieee", "aabb")] }
      { info := [("addr", "0001"), ("ieee", "aabb")],
        endpoints := [(1, { device := some 0, in_clusters := some [0] })] }
      (by decide) (by decide) (by decide) (by decide)).2.2.2.2
     "aabb" (by decide) (by decide)⟩

/-- C1 counterexample: starting from the empty directory, insert a device
at `0001` with ieee `aabb` and one at `0002` with ieee `ccdd`; then call
`_set_device` with address `0002` and ieee `aabb`.  The incoming ieee
equals that of the device tracked under the different address `0001`, yet
no renamed event is emitted, the old key `0001` survives, and two tracked
devices end up sharing ieee `aabb`. -/
theorem set_device_dup_ieee_cex :
    dictLookup "0001"
        (set_device (set_device [] { info := [("addr", "0001"), ("ieee", "aabb")] }).1
          { info := [("addr", "0002"), ("ieee", "ccdd")] }).1 =
      some { info := [("addr", "0001"), ("ieee", "aabb")] } ∧
    (set_device
        (set_device (set_device [] { info := [("addr", "0001"), ("ieee", "aabb")] }).1
          { info := [("addr", "0002"), ("ieee", "ccdd")] }).1
        { info := [("addr", "0002"), ("ieee", "aabb")] }).2 =
      [DirEvent.updated "0002"] ∧
    dictLookup "0001"
        (set_device
          (set_device (set_device [] { info := [("addr", "0001"), ("ieee", "aabb")] }).1
            { info := [("addr", "0002"), ("ieee", "ccdd")] }).1
          { info := [("addr", "0002"), ("ieee", "aabb")] }).1 =
      some { info := [("addr", "0001"), ("ieee", "aabb")] } ∧
    ((set_device
        (set_device (set_device [] { info := [("addr", "0001"), ("ieee", "aabb")] }).1
          { info := [("addr", "0002"), ("ieee", "ccdd")] }).1
        { info := [("addr", "0002"), ("ieee", "aabb")] }).1.filter
        (fun kv => decide (kv.2.ieee = some "aabb"))).length = 2 := by
  decide

/-- C3: a frame whose length field disagrees with `len(payload) + 1`, or
whose checksum byte disagrees with the XOR-fold of the other frame bytes,
is discarded: whatever the response interpreter does, the state — device
directory and response cache — is returned unchanged. -/
theorem decode_data_rejects_malformed
    (interp : Frame → CoreState → CoreState) (st : CoreState)
    (packet : List Nat) (a b c d e x : Nat) (rest : List Nat)
    (hdec : zigate_decode ((packet.drop 1).dropLast)
      = a :: b :: c :: d :: e :: x :: rest)
    (hbad : 256 * c + d ≠ ((x :: rest).dropLast).length + 1 ∨
            e ≠ checksum [ChecksumArg.bytes [a, b, c, d],
                          ChecksumArg.int ((x :: rest).getLastD 0),
                          ChecksumArg.bytes ((x :: rest).dropLast)]) :
    decode_data interp st packet = st := by
  unfold decode_data
  rw [hdec]
  show (if 256 * c + d ≠ ((x :: rest).dropLast).length + 1 then st
        else if e ≠ checksum [ChecksumArg.bytes [a, b, c, d],
                              ChecksumArg.int ((x :: rest).getLastD 0),
                              ChecksumArg.bytes ((x :: rest).dropLast)] then st
        else
          interp
            ⟨256 * a + b, 256 * c + d, e, (x :: rest).dropLast,
             (x :: rest).getLastD 0⟩
            { st with
              last_response :=
                dictInsert (256 * a + b)
                  ⟨256 * a + b, 256 * c + d, e, (x :: rest).dropLast,
                   (x :: rest).getLastD 0⟩
                  st.last_response }) = st
  rcases hbad with hbad | hbad
  · rw [if_pos hbad]
  · by_cases hlen : 256 * c + d ≠ ((x :: rest).dropLast).length + 1
    · rw [if_pos hlen]
    · rw [if_neg hlen, if_pos hbad]

/-- Witness for C3: a stuffed packet whose frame carries checksum byte 99
where the XOR-fold is 1; the state is left untouched. -/
theorem decode_data_rejects_malformed_witness :
    decode_data (fun _ s => s) ⟨[], []⟩
        [0x01, 2, 16, 2, 17, 2, 16, 2, 18, 99, 2, 21, 2, 23, 0x03] =
      ⟨[], []⟩ :=
  decode_data_rejects_malformed (fun _ s => s) ⟨[], []⟩
    [0x01, 2, 16, 2, 17, 2, 16, 2, 18, 99, 2, 21, 2, 23, 0x03]
    0 1 0 2 99 5 [7] (by decide) (Or.inr (by decide))

/-- C4: with a header and image data loaded, a block request matching the
header's image version/type/manufacturer code is answered with exactly the
slice `image_data[file_offset : file_offset + max_data_size]` tagged with
the request's sequence number, and `transfered` is set to the offset; a
request with any mismatched field is rejected with no data sent and the
session unchanged. -/
theorem ota_send_image_data_spec (st : OtaState) (now : Nat)
    (req : OtaBlockRequest) (header : ImageHeader) (image_data : List Nat)
    (hh : st.image.header = some header) (hd : st.image.data = some image_data) :
    (req.image_version = header.image_version →
     req.image_type = header.image_type →
     req.manufacturer_code = header.manufacturer_code →
       (ota_send_image_data st now req).2 =
         some ⟨req.address_mode, req.addr, 0x01, req.endpoint, req.sequence,
               0x00, req.file_offset, header.image_version, header.image_type,
               header.manufacturer_code,
               ((image_data.drop req.file_offset).take req.max_data_size).length,
               (image_data.drop req.file_offset).take req.max_data_size⟩ ∧
       (ota_send_image_data st now req).1.transfered = req.file_offset) ∧
    (req.image_version ≠ header.image_version ∨
     req.image_type ≠ header.image_type ∨
     req.manufacturer_code ≠ header.manufacturer_code →
       ota_send_image_data st now req = (st, none)) := by
  constructor
  · intro h1 h2 h3
    have hcond : ¬ (req.image_version ≠ header.image_version ∨
        req.image_type ≠ header.image_type ∨
        req.manufacturer_code ≠ header.manufacturer_code) := by
      push_neg
      exact ⟨h1, h2, h3⟩
    constructor
    · simp only [ota_send_image_data, hh, hd, if_neg hcond]
    · simp only [ota_send_image_data, hh, hd, if_neg hcond]
  · intro hbad
    simp only [ota_send_image_data, hh, hd, if_pos hbad]

/-- Witness for C4 with the spec's vector: header
(version 5, type 1, manufacturer 9), 200-byte image, request for 50 bytes
at offset 100 matches and yields the 50-byte slice with `transfered = 100`;
the same request with version 6 is rejected unchanged. -/
theorem ota_send_image_data_spec_witness :
    (ota_send_image_data
        ⟨⟨some ⟨9, 1, 5⟩, some (List.replicate 200 7)⟩, false, none, 0, none⟩ 0
        ⟨"abcd", 2, 1, 3, 100, 50, 5, 1, 9⟩).2 =
      some ⟨2, "abcd", 0x01, 1, 3, 0x00, 100, 5, 1, 9,
            ((List.replicate 200 7).drop 100).take 50 |>.length,
            ((List.replicate 200 7).drop 100).take 50⟩ ∧
    (ota_send_image_data
        ⟨⟨some ⟨9, 1, 5⟩, some (List.replicate 200 7)⟩, false, none, 0, none⟩ 0
        ⟨"abcd", 2, 1, 3, 100, 50, 5, 1, 9⟩).1.transfered = 100 ∧
    ((List.replicate 200 7).drop 100).take 50 = List.replicate 50 7 ∧
    ota_send_image_data
        ⟨⟨some ⟨9, 1, 5⟩, some (List.replicate 200 7)⟩, false, none, 0, none⟩ 0
        ⟨"abcd", 2, 1, 3, 100, 50, 6, 1, 9⟩ =
      (⟨⟨some ⟨9, 1, 5⟩, some (List.replicate 200 7)⟩, false, none, 0, none⟩,
       none) :=
  ⟨((ota_send_image_data_spec
      ⟨⟨some ⟨9, 1, 5⟩, some (List.replicate 200 7)⟩, false, none, 0, none⟩ 0
      ⟨"abcd", 2, 1, 3, 100, 50, 5, 1, 9⟩ ⟨9, 1, 5⟩ (List.replicate 200 7)
      rfl rfl).1 rfl rfl rfl).1,
   ((ota_send_image_data_spec
      ⟨⟨some ⟨9, 1, 5⟩, some (List.replicate 200 7)⟩, false, none, 0, none⟩ 0
      ⟨"abcd", 2, 1, 3, 100, 50, 5, 1, 9⟩ ⟨9, 1, 5⟩ (List.replicate 200 7)
      rfl rfl).1 rfl rfl rfl).2,
   by decide,
   (ota_send_image_data_spec
      ⟨⟨some ⟨9, 1, 5⟩, some (List.replicate 200 7)⟩, false, none, 0, none⟩ 0
      ⟨"abcd", 2, 1, 3, 100, 50, 6, 1, 9⟩ ⟨9, 1, 5⟩ (List.replicate 200 7)
      rfl rfl).2 (by decide)⟩

/-- C5: an upgrade-end request received while the session is active resets
the session to idle for every status value: header and data cleared,
active false, transferred bytes zero, target address cleared. -/
theorem ota_upgrade_end_resets (st : OtaState) (status : Nat)
    (h : st.active = true) :
    (ota_handle_upgrade_end_request st status).image.header = none ∧
    (ota_handle_upgrade_end_request st status).image.data = none ∧
    (ota_handle_upgrade_end_request st status).active = false ∧
    (ota_handle_upgrade_end_request st status).transfered = 0 ∧
    (ota_handle_upgrade_end_request st status).addr = none ∧
    ota_handle_upgrade_end_request st status = ota_reset_local_variables := by
  simp [ota_handle_upgrade_end_request, h, ota_reset_local_variables]

/-- Witness for C5: an active session with loaded image is reset by an
upgrade-end request with the client-abort status 0x95. -/
theorem ota_upgrade_end_resets_witness :
    (ota_handle_upgrade_end_request
        ⟨⟨some ⟨9, 1, 5⟩, some [1, 2, 3]⟩, true, some 4, 42, some "abcd"⟩
        0x95).image.header = none ∧
    (ota_handle_upgrade_end_request
        ⟨⟨some ⟨9, 1, 5⟩, some [1, 2, 3]⟩, true, some 4, 42, some "abcd"⟩
        0x95).active = false ∧
    ota_handle_upgrade_end_request
        ⟨⟨some ⟨9, 1, 5⟩, some [1, 2, 3]⟩, true, some 4, 42, some "abcd"⟩
        0x95 = ota_reset_local_variables :=
  ⟨(ota_upgrade_end_resets
      ⟨⟨some ⟨9, 1, 5⟩, some [1, 2, 3]⟩, true, some 4, 42, some "abcd"⟩
      0x95 rfl).1,
   (ota_upgrade_end_resets
      ⟨⟨some ⟨9, 1, 5⟩, some [1, 2, 3]⟩, true, some 4, 42, some "abcd"⟩
      0x95 rfl).2.2.1,
   (ota_upgrade_end_resets
      ⟨⟨some ⟨9, 1, 5⟩, some [1, 2, 3]⟩, true, some 4, 42, some "abcd"⟩
      0x95 rfl).2.2.2.2.2⟩

theorem wait_status_go_none (statuses : Nat → Option Nat) (cnt : Nat)
    (hnone : ∀ k, statuses k = none) :
    ∀ fuel k, wait_status_go statuses cnt fuel k = (none, cnt + 1) := by
  intro fuel
  induction fuel with
  | zero => intro k; rfl
  | succ fuel ih =>
      intro k
      rw [wait_status_go, hnone k]
      exact ih (k + 1)

theorem wait_status_go_found (statuses : Nat → Option Nat) (cnt : Nat) :
    ∀ (fuel k0 k : Nat) (s : Nat), k0 ≤ k → k < k0 + fuel →
      statuses k = some s → (∀ j, k0 ≤ j → j < k → statuses j = none) →
      wait_status_go statuses cnt fuel k0 = (some s, 0) := by
  intro fuel
  induction fuel with
  | zero => intro k0 k s h1 h2 _ _; omega
  | succ fuel ih =>
      intro k0 k s h1 h2 hs hbefore
      by_cases hk : k = k0
      · subst hk
        rw [wait_status_go, hs]
      · have hlt : k0 < k := lt_of_le_of_ne h1 (Ne.symm hk)
        rw [wait_status_go, hbefore k0 (le_refl k0) hlt]
        exact ih (k0 + 1) k s hlt (by omega) hs
          (fun j hj1 hj2 => hbefore j (by omega) hj2)

/-- C6: against a transport that never delivers a status, the wait
terminates with an absent result after exhausting the 3-second poll budget
and increments the consecutive no-response counter by exactly one; if a
status arrives at some poll within the budget, that status is returned and
the counter is reset to zero. -/
theorem wait_status_spec (statuses : Nat → Option Nat) (cnt : Nat) :
    ((∀ k, statuses k = none) →
       wait_status statuses cnt = (none, cnt + 1)) ∧
    (∀ k s, k < 301 → statuses k = some s → (∀ j, j < k → statuses j = none) →
       wait_status statuses cnt = (some s, 0)) := by
  constructor
  · intro hnone
    exact wait_status_go_none statuses cnt hnone 301 0
  · intro k s hk hs hbefore
    exact wait_status_go_found statuses cnt 301 0 k s (Nat.zero_le k)
      (by omega) hs (fun j _ hj => hbefore j hj)

/-- Witness for C6: the silent transport yields an absent status and bumps
the counter from 2 to 3; a transport answering 0 at the first poll yields
status 0 and resets the counter. -/
theorem wait_status_spec_witness :
    wait_status (fun _ => none) 2 = (none, 3) ∧
    wait_status (fun _ => some 0) 2 = (some 0, 0) :=
  ⟨(wait_status_spec (fun _ => none) 2).1 (fun _ => rfl),
   (wait_status_spec (fun _ => some 0) 2).2 0 0 (by omega) rfl
     (fun j hj => absurd hj (Nat.not_lt_zero j))⟩

/-- Witness for C8: the freshly constructed empty device (no type, no
ieee, no endpoints) needs a refresh. -/
theorem need_refresh_iff_witness :
    need_refresh { info := [], endpoints := [], missing := false } = true :=
  (need_refresh_iff { info := [], endpoints := [], missing := false }).mpr
    (Or.inl (by decide))
